import Mathlib

/-!
Shallow embedding of `src/main.py` (Automated Oracle Report Generator and Mailer).

Effectful Python code is modelled by explicit state passing: every function takes
and returns a world state `S`, and a Python exception is `Except.error` in the
second component, carrying the state reached at the raise point (file writes made
before the exception persist, as on a real filesystem). An `Env` record decides,
per run, which external operations (database, Gmail, filesystem) succeed; the
wall clock `datetime.now()` is an abstract stream `Env.clock : Nat → String`
consumed one tick per `now_ts` call.
-/

namespace RA

/-- One data row of `logs.csv`: `status, job, time, notes` (line 63 of main.py). -/
structure Row where
  status : String
  job    : String
  time   : String
  notes  : String
deriving DecidableEq, Repr

/-- A physical line of `logs.csv`: the header line or one complete data row. -/
inductive LogLine where
  | header
  | row (r : Row)
deriving DecidableEq, Repr

/-- The Python exceptions the embedding distinguishes. -/
inductive Err where
  | sourceNotFound  -- FileNotFoundError raised at line 194
  | connectErr      -- oracledb.connect failure, line 167
  | cursorErr       -- con.cursor() failure, line 168
  | execErr         -- cur.execute failure, line 170
  | csvErr          -- df.to_csv failure, line 200
  | zipErr          -- zipfile creation failure, lines 204-205
  | refreshErr      -- creds.refresh failure, line 128
  | buildErr        -- build of the gmail service failure, line 129
  | attachReadErr   -- reading the attachment file, line 138
  | sendErr         -- messages send execute failure, line 150
  | secretsErr      -- RuntimeError at line 101
  | logErr          -- opening or writing logs.csv fails, lines 66-70
deriving DecidableEq, Repr

/-- A notifier invocation, recorded at the entry of `send_mail_gmail_api`
(trace instrumentation for the function call at line 108). -/
structure MailCall where
  recipients : List String
  subject    : String
  body       : String
  attachment : Option String
deriving DecidableEq, Repr

/-- A message accepted by the Gmail transport (line 150 succeeded). -/
structure Mail where
  sender     : String
  recipients : List String
  subject    : String
  body       : String
  attached   : Option String  -- name of the attached file, if any
deriving DecidableEq, Repr

/-- The world state threaded through the embedding. `outputs` models the
`Output` directory as an association of file path to the id of the run that
last wrote it (a later write to the same path overwrites). `dbCalls` and
`mailCalls` and `jobRuns` are trace instrumentation counting collaborator
invocations. -/
structure S where
  logFile   : Option (List LogLine)  -- logs.csv; `none` = file absent
  tick      : Nat                    -- clock position
  conns     : Nat                    -- open Oracle connections
  curs      : Nat                    -- open cursors
  outputs   : List (String × Nat)    -- Output dir: path ↦ id of last writer
  mails     : List Mail              -- messages accepted by the transport
  mailCalls : List MailCall          -- trace: notifier invocations
  dbCalls   : Nat                    -- trace: execute_query invocations
  jobRuns   : Nat                    -- trace: run_one_job invocations
deriving DecidableEq, Repr

/-- The empty initial world: no log file, empty Output directory. -/
def S0 : S :=
  { logFile := none, tick := 0, conns := 0, curs := 0, outputs := [],
    mails := [], mailCalls := [], dbCalls := 0, jobRuns := 0 }

/-- Per-run environment: which external operations succeed, the text of the
query source file, and the clock stream. -/
structure Env where
  sourceExists : Bool           -- sql_path.exists(), line 193
  sqlText      : String         -- sql_path.read_text(), line 196
  connectOk    : Bool           -- oracledb.connect succeeds, line 167
  cursorOk     : Bool           -- con.cursor() succeeds, line 168
  execOk       : Bool           -- cur.execute succeeds, line 170
  nrows        : Nat            -- number of rows the query returns
  csvOk        : Bool           -- df.to_csv succeeds, line 200
  zipOk        : Bool           -- ZIP creation succeeds, lines 204-205
  refreshOk    : Bool           -- creds.refresh succeeds, line 128
  buildOk      : Bool           -- gmail service build succeeds, line 129
  attachReadOk : Bool           -- reading the attachment succeeds, line 138
  sendOk       : Bool           -- the Gmail send succeeds, line 150
  logOk        : Bool           -- logs.csv can be opened and written, lines 66-70
  clock        : Nat → String   -- datetime.now().strftime(...), line 58

/-- The secrets bundle (keys used at lines 197 and 217-226 and 234-241). -/
structure Secrets where
  DB_DSN : String
  GMAIL_SENDER_EMAIL : String
  GMAIL_CLIENT_ID : String
  GMAIL_CLIENT_SECRET : String
  GMAIL_REFRESH_TOKEN : String
  RECEIVERS : List String
  ERROR_RECEIVERS : List String
deriving DecidableEq, Repr

/-- `now_ts` (lines 56-58): read the clock, advancing it one tick. -/
def now_ts (env : Env) (s : S) : String × S :=
  (env.clock s.tick, { s with tick := s.tick + 1 })

/-- The body of the critical section of `log_append` (lines 65-70): if the file
does not exist, opening in append mode creates it and the header is written
first; then the row is appended. -/
def logAppendCore (file : Option (List LogLine)) (r : Row) : List LogLine :=
  match file with
  | none => [.header, .row r]
  | some ls => ls ++ [.row r]

/-- `log_append` (lines 61-70). The whole open-append-write-close runs under
`log_lock`. There is no exception handler in the source: when the file cannot
be opened or written (`env.logOk = false`) the exception propagates to the
caller and the file is unchanged. -/
def log_append (env : Env) (s : S) (r : Row) : S × Except Err Unit :=
  if env.logOk then
    ({ s with logFile := some (logAppendCore s.logFile r) }, .ok ())
  else
    (s, .error .logErr)

/-- `log_print` (lines 73-78): take a timestamp, print to the console (not
modelled), then append `[stage, job, ts, note]` to the log. No exception
handler: a `log_append` failure propagates. -/
def log_print (env : Env) (s : S) (stage job note : String) : S × Except Err Unit :=
  let (ts, s) := now_ts env s
  log_append env s { status := stage, job := job, time := ts, notes := note }

/-- `Path(p).exists()` for paths inside the modelled `Output` directory. -/
def pathExists (s : S) (p : String) : Bool :=
  (s.outputs.lookup p).isSome

/-- Writing a file at `name` by run `runId`: overwrites an existing entry with
the same path, otherwise adds a new one. -/
def writeOut (outputs : List (String × Nat)) (name : String) (runId : Nat) :
    List (String × Nat) :=
  match outputs with
  | [] => [(name, runId)]
  | (n, v) :: rest =>
      if n = name then (name, runId) :: rest else (n, v) :: writeOut rest name runId

/-- `Path(p).name`: the component after the last slash. -/
def basename (p : String) : String :=
  match (p.splitOn "/").getLast? with
  | some n => n
  | none => p

/-- `send_mail_gmail_api` (lines 108-157). Everything from credential refresh
to the transport call sits in one `try`; any exception there is caught at line
154, a `MAIL-ERROR` diagnostic is logged and `False` is returned. The only way
an exception leaves this function is the `log_print` inside the handler itself
failing (a log failure). The credential object construction (lines 121-127) and
the MIME assembly are pure and cannot fail. -/
def send_mail_gmail_api (env : Env) (s : S)
    (sender_email _client_id _client_secret _refresh_token : String)
    (recipients : List String) (subject body_text : String)
    (attachment_path : Option String) : S × Except Err Bool :=
  -- trace: one notifier invocation
  let s := { s with
    mailCalls := s.mailCalls ++
      [{ recipients := recipients, subject := subject, body := body_text,
         attachment := attachment_path }] }
  let job_label := "MAIL:" ++ subject
  -- try block, lines 120-152
  let tryResult : S × Except Err Unit :=
    if !env.refreshOk then (s, .error .refreshErr)
    else if !env.buildOk then (s, .error .buildErr)
    else
      -- optional attachment, lines 137-147
      let attStep : S × Except Err (Option String) :=
        match attachment_path with
        | some p =>
            if pathExists s p then
              if !env.attachReadOk then (s, .error .attachReadErr)
              else
                let pr := log_print env s "MAIL" job_label ("Attached file " ++ p)
                match pr.2 with
                | .error e => (pr.1, .error e)
                | .ok () => (pr.1, .ok (some (basename p)))
            else (s, .ok none)
        | none => (s, .ok none)
      match attStep with
      | (s1, .error e) => (s1, .error e)
      | (s1, .ok attached) =>
          if !env.sendOk then (s1, .error .sendErr)
          else
            let s2 := { s1 with
              mails := s1.mails ++
                [{ sender := sender_email, recipients := recipients,
                   subject := subject, body := body_text, attached := attached }] }
            let pr := log_print env s2 "MAIL-SENT" job_label
              ("Mail sent to " ++ String.intercalate "," recipients)
            match pr.2 with
            | .error e => (pr.1, .error e)
            | .ok () => (pr.1, .ok ())
  match tryResult with
  | (s', .ok ()) => (s', .ok true)
  | (s', .error _e) =>
      -- except handler, lines 154-157
      let pr := log_print env s' "MAIL-ERROR" job_label "exception and traceback"
      match pr.2 with
      | .error e2 => (pr.1, .error e2)
      | .ok () => (pr.1, .ok false)

/-- `execute_query` (lines 164-179). The connection is opened and the cursor
created before the `try`; only then does the `finally` (lines 176-179) close
cursor then connection on every exit of the `try`. A failure of `con.cursor()`
itself (line 168) therefore propagates with the connection still open — that
exit path is outside the `finally`. A `finally` that raises (its `log_print`
failing) replaces the original outcome, matching Python semantics. -/
def execute_query (env : Env) (s : S) (_DB_DSN _sql_text : String) :
    S × Except Err Nat :=
  -- trace: one Query Runner invocation
  let s := { s with dbCalls := s.dbCalls + 1 }
  let pr0 := log_print env s "DB-CONNECT" "THREAD" "Opening DB connection"
  match pr0.2 with
  | .error e => (pr0.1, .error e)
  | .ok () =>
    let s := pr0.1
    if !env.connectOk then (s, .error .connectErr)
    else
      let s := { s with conns := s.conns + 1 }
      if !env.cursorOk then (s, .error .cursorErr)
      else
      let s := { s with curs := s.curs + 1 }
      -- try block, lines 169-175
      let body : S × Except Err Nat :=
        if !env.execOk then (s, .error .execErr)
        else
          let pr1 := log_print env s "DB-EXEC" "THREAD"
            ("Executed SQL | Rows=" ++ toString env.nrows)
          match pr1.2 with
          | .error e => (pr1.1, .error e)
          | .ok () => (pr1.1, .ok env.nrows)
      -- finally block, lines 176-179
      let sf := { body.1 with curs := body.1.curs - 1, conns := body.1.conns - 1 }
      let pr2 := log_print env sf "DB-CLOSE" "THREAD" "Connection closed."
      match pr2.2 with
      | .error e => (pr2.1, .error e)
      | .ok () => (pr2.1, body.2)

/-- Placeholder for `traceback.format_exc()`. -/
def tracebackText : String := "Traceback (most recent call last): ..."

/-- `str(e)` for the modelled exceptions (the exact message text is opaque to
every property; only the FileNotFoundError message is reproduced). -/
def errStr (sql_filename : String) : Err → String
  | .sourceNotFound => "SQL file not found: Scripts/" ++ sql_filename
  | .connectErr => "DPY-6001: cannot connect to database"
  | .cursorErr => "InterfaceError: cannot open cursor"
  | .execErr => "ORA-00900: invalid SQL statement"
  | .csvErr => "OSError: cannot write CSV"
  | .zipErr => "OSError: cannot write ZIP"
  | .refreshErr => "RefreshError"
  | .buildErr => "HttpError: service build failed"
  | .attachReadErr => "OSError: cannot read attachment"
  | .sendErr => "HttpError: send failed"
  | .secretsErr => "Failed to fetch secrets from AWS or local file."
  | .logErr => "OSError: cannot open logs.csv"

/-- The `try` block of `run_one_job` (lines 192-229): resolve the source file,
run the query, export CSV and ZIP, send the success mail (its boolean result is
ignored, line 217), append the `SUCCESS` record and log `JOB-DONE`. Any
`Except.error` produced here is what the `except` at line 231 catches. -/
def runOneJobTry (env : Env) (runId : Nat) (s : S) (sql_filename : String)
    (secrets : Secrets) (job_id : String) : S × Except Err Unit :=
  if !env.sourceExists then (s, .error .sourceNotFound)
  else
    let sql_text := env.sqlText
    let eq := execute_query env s secrets.DB_DSN sql_text
    match eq.2 with
    | .error e => (eq.1, .error e)
    | .ok _nrows =>
      let s := eq.1
      let csv_file := "Output/" ++ job_id ++ ".csv"
      if !env.csvOk then (s, .error .csvErr)
      else
        let s := { s with outputs := writeOut s.outputs csv_file runId }
        let pr1 := log_print env s "FILE-CSV" job_id ("Wrote CSV: " ++ csv_file)
        match pr1.2 with
        | .error e => (pr1.1, .error e)
        | .ok () =>
          let s := pr1.1
          let zip_file := "Output/" ++ job_id ++ ".zip"
          if !env.zipOk then (s, .error .zipErr)
          else
            let s := { s with outputs := writeOut s.outputs zip_file runId }
            let pr2 := log_print env s "FILE-ZIP" job_id ("Created ZIP: " ++ zip_file)
            match pr2.2 with
            | .error e => (pr2.1, .error e)
            | .ok () =>
              let s := pr2.1
              let subject := "Report: " ++ sql_filename
              let body := "Hi All, the report for " ++ sql_filename ++
                " is ready. Attached ZIP file contains the CSV output."
              let mr := send_mail_gmail_api env s secrets.GMAIL_SENDER_EMAIL
                secrets.GMAIL_CLIENT_ID secrets.GMAIL_CLIENT_SECRET
                secrets.GMAIL_REFRESH_TOKEN secrets.RECEIVERS subject body
                (some zip_file)
              match mr.2 with
              | .error e => (mr.1, .error e)
              | .ok _mailOk =>
                let s := mr.1
                let p := now_ts env s
                let la := log_append env p.2
                  { status := "SUCCESS", job := job_id, time := p.1,
                    notes := "Job completed successfully" }
                match la.2 with
                | .error e => (la.1, .error e)
                | .ok () =>
                  log_print env la.1 "JOB-DONE" job_id "Completed successfully."

/-- The `except` block of `run_one_job` (lines 231-243): log `JOB-ERROR`,
notify the error recipients (no attachment), append the `FAIL` record. None of
these three statements has its own handler, so a log failure here escapes
`run_one_job` itself. -/
def runOneJobHandler (env : Env) (s : S) (sql_filename : String)
    (secrets : Secrets) (job_id : String) (e : Err) : S × Except Err Unit :=
  let pr := log_print env s "JOB-ERROR" job_id
    (errStr sql_filename e ++ "\n" ++ tracebackText)
  match pr.2 with
  | .error e2 => (pr.1, .error e2)
  | .ok () =>
    let mr := send_mail_gmail_api env pr.1 secrets.GMAIL_SENDER_EMAIL
      secrets.GMAIL_CLIENT_ID secrets.GMAIL_CLIENT_SECRET
      secrets.GMAIL_REFRESH_TOKEN secrets.ERROR_RECEIVERS
      ("FAILED: " ++ sql_filename)
      ("Error executing job " ++ sql_filename ++ "\n\n" ++ tracebackText)
      none
    match mr.2 with
    | .error e2 => (mr.1, .error e2)
    | .ok _b =>
      let p := now_ts env mr.1
      log_append env p.2
        { status := "FAIL", job := job_id, time := p.1,
          notes := errStr sql_filename e }

/-- The `try`/`except` composition of `run_one_job` (lines 192-243): run the
`try` block; a caught exception runs the `except` block. -/
def runOneJobBody (env : Env) (runId : Nat) (s : S) (sql_filename : String)
    (secrets : Secrets) (job_id : String) : S × Except Err Unit :=
  let tr := runOneJobTry env runId s sql_filename secrets job_id
  match tr.2 with
  | .ok () => (tr.1, .ok ())
  | .error e => runOneJobHandler env tr.1 sql_filename secrets job_id e

/-- `run_one_job` (lines 186-243): build the job token from the source name and
a timestamp, log `JOB-START` (outside the `try`!), then run the `try` block and
on any exception the `except` block. An `Except.error` result means a Python
exception escaped `run_one_job` to the scheduler. -/
def run_one_job (env : Env) (runId : Nat) (s : S) (sql_filename : String)
    (secrets : Secrets) : S × Except Err Unit :=
  -- trace: one Job Executor invocation
  let s := { s with jobRuns := s.jobRuns + 1 }
  let p := now_ts env s
  let job_id := sql_filename ++ " " ++ p.1
  let pr := log_print env p.2 "JOB-START" job_id "Starting job..."
  match pr.2 with
  | .error e => (pr.1, .error e)
  | .ok () => runOneJobBody env runId pr.1 sql_filename secrets job_id

/-! ## The scheduler (`main`, lines 250-280) and the job-list parser -/

/-- Python line-boundary characters recognised by `str.splitlines`. -/
def isLineBreak (c : Char) : Bool :=
  c = '\n' || c = '\r' || c = '\x0b' || c = '\x0c' ||
  c = '\x1c' || c = '\x1d' || c = '\x1e' || c = '\x85' ||
  c = '\u2028' || c = '\u2029'

/-- `str.splitlines` on a character list: `\r\n` counts as one boundary, and a
trailing boundary produces no empty final line. -/
def splitlinesAux : List Char → List Char → List (List Char)
  | [], acc => if acc.isEmpty then [] else [acc.reverse]
  | '\r' :: '\n' :: cs, acc => acc.reverse :: splitlinesAux cs []
  | c :: cs, acc =>
      if isLineBreak c then acc.reverse :: splitlinesAux cs []
      else splitlinesAux cs (c :: acc)

/-- `str.splitlines` (line 264). -/
def pySplitlines (content : String) : List String :=
  (splitlinesAux content.data []).map fun cs => { data := cs }

/-- Characters removed by Python `str.strip()` with no argument: the CPython
whitespace class (`str.isspace()`), i.e. the ASCII whitespace controls
0x09-0x0d and 0x1c-0x1f, the space, NEL (0x85), NBSP (0xa0), Ogham space mark
(0x1680), the Zs spaces 0x2000-0x200a, the line and paragraph separators
(0x2028, 0x2029), narrow NBSP (0x202f), medium mathematical space (0x205f) and
the ideographic space (0x3000). -/
def isPySpace (c : Char) : Bool :=
  c = ' ' || c = '\t' || c = '\n' || c = '\r' || c = '\x0b' || c = '\x0c' ||
  c = '\x1c' || c = '\x1d' || c = '\x1e' || c = '\x1f' || c = '\x85' ||
  c = '\xa0' || c = '\u1680' || ('\u2000' ≤ c && c ≤ '\u200a') ||
  c = '\u2028' || c = '\u2029' || c = '\u202f' || c = '\u205f' || c = '\u3000'

/-- `str.strip()` on a character list: drop whitespace from both ends. -/
def pyStripChars (l : List Char) : List Char :=
  ((l.dropWhile isPySpace).reverse.dropWhile isPySpace).reverse

/-- `line.strip()` (lines 263-265). -/
def pyStrip (t : String) : String := { data := pyStripChars t.data }

/-- The job-list comprehension (lines 262-266): one identifier per non-blank
line, stripped, blank lines skipped. -/
def parseJobs (content : String) : List String :=
  (pySplitlines content).filterMap fun line =>
    let t := pyStrip line
    if t = "" then none else some t

/-- The environment of one whole `main` invocation: the main thread's own
effect environment, the secrets path, the job-list file and one effect
environment per dispatched job (indexed by dispatch position). -/
structure MainEnv where
  env0 : Env                 -- effects on the main thread
  awsOk : Bool               -- AWS Secrets Manager reachable, lines 91-95
  localSecretsExists : Bool  -- local_secrets.json present, line 98
  secrets : Secrets
  listFileExists : Bool      -- querymod.txt present, line 257
  listContent : String       -- its text, line 264
  jobEnv : Nat → Env         -- per-dispatched-job environment

/-- `get_secret` (lines 85-101): try AWS, else log a warning and fall back to
the local file, else raise. -/
def get_secret (me : MainEnv) (s : S) : S × Except Err Secrets :=
  if me.awsOk then (s, .ok me.secrets)
  else
    let pr := log_print me.env0 s "WARN" "SECRETS" "Using local secret fallback"
    match pr.2 with
    | .error e => (pr.1, .error e)
    | .ok () =>
      if me.localSecretsExists then (pr.1, .ok me.secrets)
      else (pr.1, .error .secretsErr)

/-- The thread pool (lines 270-278), serialized: the pool runs the jobs
concurrently, but the only shared mutable state is the audit log whose appends
are serialized by `log_lock` (the interleaving-level analysis is
`auditInterleaving` below), so run and event counts are those of this
serialization. Each completed future is wrapped at pool level: an exception
escaping `run_one_job` is caught and logged as `THREAD-ERR` (lines 274-278). -/
def runPool (me : MainEnv) (secrets : Secrets) (s : S) :
    List String → Nat → S × Except Err Unit
  | [], _ => (s, .ok ())
  | job :: rest, i =>
      let jr := run_one_job (me.jobEnv i) i s job secrets
      match jr.2 with
      | .ok () =>
          let pr := log_print me.env0 jr.1 "THREAD" job "Completed."
          match pr.2 with
          | .error e => (pr.1, .error e)
          | .ok () => runPool me secrets pr.1 rest (i + 1)
      | .error e =>
          let pr := log_print me.env0 jr.1 "THREAD-ERR" job
            ("Unhandled exception: " ++ errStr job e)
          match pr.2 with
          | .error e2 => (pr.1, .error e2)
          | .ok () => runPool me secrets pr.1 rest (i + 1)

/-- `main` after the secrets are fetched (lines 256-280): check the job-list
file, parse it, run the pool, and log the summary. -/
def mainAfterSecrets (me : MainEnv) (secrets : Secrets) (s : S) :
    S × Except Err Unit :=
  if !me.listFileExists then
    let prf := log_print me.env0 s "FATAL" "MAIN" "querymod.txt not found."
    match prf.2 with
    | .error e => (prf.1, .error e)
    | .ok () => (prf.1, .ok ())
  else
    let jobs := parseJobs me.listContent
    let pr1 := log_print me.env0 s "INFO" "MAIN"
      ("Found " ++ toString jobs.length ++ " jobs")
    match pr1.2 with
    | .error e => (pr1.1, .error e)
    | .ok () =>
      let pl := runPool me secrets pr1.1 jobs 0
      match pl.2 with
      | .error e => (pl.1, .error e)
      | .ok () =>
        log_print me.env0 pl.1 "SUMMARY" "MAIN" "All jobs completed successfully."

/-- `main` (lines 250-280). -/
def mainRun (me : MainEnv) (s : S) : S × Except Err Unit :=
  let pr0 := log_print me.env0 s "INFO" "MAIN" "Starting automated report generation..."
  match pr0.2 with
  | .error e => (pr0.1, .error e)
  | .ok () =>
    let gs := get_secret me pr0.1
    match gs.2 with
    | .error e => (gs.1, .error e)
    | .ok secrets => mainAfterSecrets me secrets gs.1

/-! ## Observations on the audit log -/

/-- The data rows of the log file, header lines dropped. -/
def dataRows : Option (List LogLine) → List Row
  | none => []
  | some ls => ls.filterMap fun
      | .header => none
      | .row r => some r

/-- Is this row a terminal audit record? -/
def Row.isTerminal (r : Row) : Bool :=
  r.status == "SUCCESS" || r.status == "FAIL"

/-- Number of terminal audit records in the log file. -/
def terminalCount (f : Option (List LogLine)) : Nat :=
  (dataRows f).countP Row.isTerminal

/-- Number of data rows with the given status tag. -/
def countStatus (f : Option (List LogLine)) (st : String) : Nat :=
  (dataRows f).countP fun r => r.status == st

/-- The data rows appended between two snapshots of the log file. -/
def rowsAdded (before after : Option (List LogLine)) : List Row :=
  (dataRows after).drop (dataRows before).length

/-! ## Concurrent appends (claim C9)

`log_append` holds `log_lock` (line 50) across the whole
open-append-write-close (lines 64-70), so each append is atomic: a concurrent
execution of K jobs is some interleaving of the jobs' complete appends. -/

/-- One atomic audit append with the log available (the critical section of
lines 64-70, in the `env.logOk = true` case). -/
def auditAppend (file : Option (List LogLine)) (r : Row) : Option (List LogLine) :=
  some (logAppendCore file r)

/-- Replay a serialized sequence of atomic appends. -/
def runAppends (file : Option (List LogLine)) (rs : List Row) :
    Option (List LogLine) :=
  rs.foldl auditAppend file

/-- `auditInterleaving threads seq`: `seq` is an order-preserving interleaving
of the per-thread append sequences `threads` — exactly the serializations the
lock admits. -/
inductive auditInterleaving : List (List Row) → List Row → Prop
  | done (ts : List (List Row)) (h : ∀ t ∈ ts, t = []) : auditInterleaving ts []
  | step (ts : List (List Row)) (i : Nat) (r : Row) (t : List Row)
      (rest : List Row) (hget : ts.get? i = some (r :: t))
      (htail : auditInterleaving (ts.set i t) rest) :
      auditInterleaving ts (r :: rest)

/-- Is this log line the header? -/
def LogLine.isHeader : LogLine → Bool
  | .header => true
  | .row _ => false

/-! ## Basic lemmas about the audit log -/

theorem dataRows_logAppendCore (f : Option (List LogLine)) (r : Row) :
    dataRows (some (logAppendCore f r)) = dataRows f ++ [r] := by
  cases f <;> simp [dataRows, logAppendCore]

theorem log_append_ok {env : Env} (h : env.logOk = true) (s : S) (r : Row) :
    log_append env s r =
      ({ s with logFile := some (logAppendCore s.logFile r) }, .ok ()) := by
  simp [log_append, h]

theorem log_print_ok {env : Env} (h : env.logOk = true) (s : S) (st j n : String) :
    log_print env s st j n =
      ({ s with
          tick := s.tick + 1,
          logFile := some (logAppendCore s.logFile
            { status := st, job := j, time := env.clock s.tick, notes := n }) },
        .ok ()) := by
  simp [log_print, now_ts, log_append, h]

theorem terminalCount_append (f : Option (List LogLine)) (r : Row) :
    terminalCount (some (logAppendCore f r)) =
      terminalCount f + (if Row.isTerminal r then 1 else 0) := by
  simp [terminalCount, dataRows_logAppendCore, List.countP_cons]

theorem countStatus_append (f : Option (List LogLine)) (r : Row) (st : String) :
    countStatus (some (logAppendCore f r)) st =
      countStatus f st + (if r.status == st then 1 else 0) := by
  simp [countStatus, dataRows_logAppendCore, List.countP_cons]

theorem lookup_writeOut_self (o : List (String × Nat)) (k : String) (v : Nat) :
    List.lookup k (writeOut o k v) = some v := by
  induction o with
  | nil => simp [writeOut, List.lookup]
  | cons hd tl ih =>
      obtain ⟨n, w⟩ := hd
      by_cases hn : n = k
      · subst hn; simp [writeOut, List.lookup]
      · have hb : (k == n) = false := by
          simp [beq_eq_false_iff_ne]; exact fun h' => hn h'.symm
        simp [writeOut, hn, List.lookup, hb, ih]

/-! ## Behaviour of the notifier with the log available -/

/-- With the audit log writable, `send_mail_gmail_api` always returns a
boolean (never raises), appends only `MAIL`/`MAIL-SENT`/`MAIL-ERROR` rows
(none terminal, none `JOB-START`), leaves connections, cursors, artifacts and
the run counters untouched, and records exactly one notifier invocation. -/
theorem send_mail_spec {env : Env} (h : env.logOk = true) (s : S)
    (se ci cs rt : String) (recips : List String) (subj body : String)
    (att : Option String) :
    (∃ b, (send_mail_gmail_api env s se ci cs rt recips subj body att).2 = .ok b) ∧
    terminalCount (send_mail_gmail_api env s se ci cs rt recips subj body att).1.logFile
      = terminalCount s.logFile ∧
    countStatus (send_mail_gmail_api env s se ci cs rt recips subj body att).1.logFile "JOB-START"
      = countStatus s.logFile "JOB-START" ∧
    countStatus (send_mail_gmail_api env s se ci cs rt recips subj body att).1.logFile "SUCCESS"
      = countStatus s.logFile "SUCCESS" ∧
    countStatus (send_mail_gmail_api env s se ci cs rt recips subj body att).1.logFile "FAIL"
      = countStatus s.logFile "FAIL" ∧
    (send_mail_gmail_api env s se ci cs rt recips subj body att).1.conns = s.conns ∧
    (send_mail_gmail_api env s se ci cs rt recips subj body att).1.curs = s.curs ∧
    (send_mail_gmail_api env s se ci cs rt recips subj body att).1.outputs = s.outputs ∧
    (send_mail_gmail_api env s se ci cs rt recips subj body att).1.dbCalls = s.dbCalls ∧
    (send_mail_gmail_api env s se ci cs rt recips subj body att).1.jobRuns = s.jobRuns ∧
    (send_mail_gmail_api env s se ci cs rt recips subj body att).1.mailCalls
      = s.mailCalls ++
        [{ recipients := recips, subject := subj, body := body, attachment := att }] := by
  rcases att with _ | p
  · cases hre : env.refreshOk <;> cases hbu : env.buildOk <;> cases hse : env.sendOk <;>
      simp [send_mail_gmail_api, log_print_ok h, hre, hbu, hse,
        terminalCount_append, countStatus_append, Row.isTerminal]
  · rcases hlk : List.lookup p s.outputs with _ | v <;>
      cases hre : env.refreshOk <;> cases hbu : env.buildOk <;>
      cases hra : env.attachReadOk <;> cases hse : env.sendOk <;>
      simp [send_mail_gmail_api, log_print_ok h, pathExists, hlk, hre, hbu, hra, hse,
        terminalCount_append, countStatus_append, Row.isTerminal]

/-! ## The per-job terminal-audit accounting -/

/-- The `try` block, with the log writable, either completes having appended
exactly one terminal record (the `SUCCESS` one) or raises having appended no
terminal record; it never appends `JOB-START` or `FAIL` rows and never touches
the run counter. -/
theorem runOneJobTry_spec {env : Env} (h : env.logOk = true) (i : Nat) (s : S)
    (name : String) (sec : Secrets) (job_id : String) :
    ((runOneJobTry env i s name sec job_id).2 = .ok () ∧
      terminalCount (runOneJobTry env i s name sec job_id).1.logFile
        = terminalCount s.logFile + 1 ∧
      countStatus (runOneJobTry env i s name sec job_id).1.logFile "JOB-START"
        = countStatus s.logFile "JOB-START" ∧
      countStatus (runOneJobTry env i s name sec job_id).1.logFile "SUCCESS"
        = countStatus s.logFile "SUCCESS" + 1 ∧
      countStatus (runOneJobTry env i s name sec job_id).1.logFile "FAIL"
        = countStatus s.logFile "FAIL" ∧
      (runOneJobTry env i s name sec job_id).1.jobRuns = s.jobRuns) ∨
    (∃ e, (runOneJobTry env i s name sec job_id).2 = .error e ∧
      terminalCount (runOneJobTry env i s name sec job_id).1.logFile
        = terminalCount s.logFile ∧
      countStatus (runOneJobTry env i s name sec job_id).1.logFile "JOB-START"
        = countStatus s.logFile "JOB-START" ∧
      countStatus (runOneJobTry env i s name sec job_id).1.logFile "SUCCESS"
        = countStatus s.logFile "SUCCESS" ∧
      countStatus (runOneJobTry env i s name sec job_id).1.logFile "FAIL"
        = countStatus s.logFile "FAIL" ∧
      (runOneJobTry env i s name sec job_id).1.jobRuns = s.jobRuns) := by
  cases hsrc : env.sourceExists
  · right
    refine ⟨.sourceNotFound, ?_, ?_, ?_, ?_, ?_, ?_⟩ <;> simp [runOneJobTry, hsrc]
  · cases hc : env.connectOk
    · right
      refine ⟨.connectErr, ?_, ?_, ?_, ?_, ?_, ?_⟩ <;>
        simp [runOneJobTry, execute_query, log_print_ok h, hsrc, hc,
          terminalCount_append, countStatus_append, Row.isTerminal]
    · cases hcu : env.cursorOk
      · right
        refine ⟨.cursorErr, ?_, ?_, ?_, ?_, ?_, ?_⟩ <;>
          simp [runOneJobTry, execute_query, log_print_ok h, hsrc, hc, hcu,
            terminalCount_append, countStatus_append, Row.isTerminal]
      · cases hex : env.execOk
        · right
          refine ⟨.execErr, ?_, ?_, ?_, ?_, ?_, ?_⟩ <;>
            simp [runOneJobTry, execute_query, log_print_ok h, hsrc, hc, hcu, hex,
              terminalCount_append, countStatus_append, Row.isTerminal]
        · cases hcsv : env.csvOk
          · right
            refine ⟨.csvErr, ?_, ?_, ?_, ?_, ?_, ?_⟩ <;>
              simp [runOneJobTry, execute_query, log_print_ok h, hsrc, hc, hcu,
                hex, hcsv, terminalCount_append, countStatus_append, Row.isTerminal]
          · cases hz : env.zipOk
            · right
              refine ⟨.zipErr, ?_, ?_, ?_, ?_, ?_, ?_⟩ <;>
                simp [runOneJobTry, execute_query, log_print_ok h, hsrc, hc, hcu,
                  hex, hcsv, hz, terminalCount_append, countStatus_append,
                  Row.isTerminal]
            · left
              cases hre : env.refreshOk <;> cases hbu : env.buildOk <;>
                cases hra : env.attachReadOk <;> cases hse : env.sendOk <;>
                (refine ⟨?_, ?_, ?_, ?_, ?_, ?_⟩ <;>
                  simp [runOneJobTry, execute_query, send_mail_gmail_api,
                    log_print_ok h, log_append_ok h, now_ts, pathExists,
                    lookup_writeOut_self, hsrc, hc, hcu, hex, hcsv, hz, hre, hbu,
                    hra, hse, terminalCount_append, countStatus_append,
                    Row.isTerminal])

/-- The `except` block, with the log writable, always completes (returning
control, not raising), appends exactly one terminal record — a `FAIL` one —
and invokes the notifier once, on the error recipient list with no
attachment. -/
theorem runOneJobHandler_spec {env : Env} (h : env.logOk = true) (s : S)
    (name : String) (sec : Secrets) (job_id : String) (e : Err) :
    (runOneJobHandler env s name sec job_id e).2 = .ok () ∧
    terminalCount (runOneJobHandler env s name sec job_id e).1.logFile
      = terminalCount s.logFile + 1 ∧
    countStatus (runOneJobHandler env s name sec job_id e).1.logFile "JOB-START"
      = countStatus s.logFile "JOB-START" ∧
    countStatus (runOneJobHandler env s name sec job_id e).1.logFile "SUCCESS"
      = countStatus s.logFile "SUCCESS" ∧
    countStatus (runOneJobHandler env s name sec job_id e).1.logFile "FAIL"
      = countStatus s.logFile "FAIL" + 1 ∧
    (runOneJobHandler env s name sec job_id e).1.conns = s.conns ∧
    (runOneJobHandler env s name sec job_id e).1.curs = s.curs ∧
    (runOneJobHandler env s name sec job_id e).1.outputs = s.outputs ∧
    (runOneJobHandler env s name sec job_id e).1.dbCalls = s.dbCalls ∧
    (runOneJobHandler env s name sec job_id e).1.jobRuns = s.jobRuns ∧
    (runOneJobHandler env s name sec job_id e).1.mails.length ≥ s.mails.length ∧
    (runOneJobHandler env s name sec job_id e).1.mailCalls
      = s.mailCalls ++
        [{ recipients := sec.ERROR_RECEIVERS, subject := "FAILED: " ++ name,
           body := "Error executing job " ++ name ++ "\n\n" ++ tracebackText,
           attachment := none }] := by
  cases hre : env.refreshOk <;> cases hbu : env.buildOk <;> cases hse : env.sendOk <;>
    simp [runOneJobHandler, send_mail_gmail_api, log_print_ok h, log_append_ok h,
      now_ts, hre, hbu, hse, terminalCount_append, countStatus_append, Row.isTerminal]

/-- The `try`/`except` composition, with the log writable, always returns
control with exactly one new terminal audit record, no new `JOB-START` row and
the run counter untouched. -/
theorem runOneJobBody_spec {env : Env} (h : env.logOk = true) (i : Nat) (s : S)
    (name : String) (sec : Secrets) (job_id : String) :
    (runOneJobBody env i s name sec job_id).2 = .ok () ∧
    terminalCount (runOneJobBody env i s name sec job_id).1.logFile
      = terminalCount s.logFile + 1 ∧
    countStatus (runOneJobBody env i s name sec job_id).1.logFile "JOB-START"
      = countStatus s.logFile "JOB-START" ∧
    (runOneJobBody env i s name sec job_id).1.jobRuns = s.jobRuns := by
  rcases runOneJobTry_spec h i s name sec job_id with
    ⟨hok, ht, hjs, _hsu, _hfa, hjr⟩ | ⟨e, herr, ht, hjs, _hsu, _hfa, hjr⟩
  · refine ⟨?_, ?_, ?_, ?_⟩ <;> simp [runOneJobBody, hok, ht, hjs, hjr]
  · have H := runOneJobHandler_spec h
      (runOneJobTry env i s name sec job_id).1 name sec job_id e
    refine ⟨?_, ?_, ?_, ?_⟩ <;>
      simp [runOneJobBody, herr, H.1, H.2.1, H.2.2.1, H.2.2.2.2.2.2.2.2.2.1,
        ht, hjs, hjr]

/-- `run_one_job`, with the log writable, always returns control to the
scheduler normally (no escaping exception), appends exactly one terminal audit
record and exactly one `JOB-START` row, and counts exactly one Job Executor
invocation. -/
theorem run_one_job_spec {env : Env} (h : env.logOk = true) (i : Nat) (s : S)
    (name : String) (sec : Secrets) :
    (run_one_job env i s name sec).2 = .ok () ∧
    terminalCount (run_one_job env i s name sec).1.logFile
      = terminalCount s.logFile + 1 ∧
    countStatus (run_one_job env i s name sec).1.logFile "JOB-START"
      = countStatus s.logFile "JOB-START" + 1 ∧
    (run_one_job env i s name sec).1.jobRuns = s.jobRuns + 1 := by
  simp only [run_one_job, log_print_ok h, now_ts]
  refine ⟨(runOneJobBody_spec h i _ name sec _).1, ?_, ?_, ?_⟩
  · rw [(runOneJobBody_spec h i _ name sec _).2.1]
    simp [terminalCount_append, Row.isTerminal]
  · rw [(runOneJobBody_spec h i _ name sec _).2.2.1]
    simp [countStatus_append]
  · rw [(runOneJobBody_spec h i _ name sec _).2.2.2]

/-! ## Concrete fixtures for witnesses and counterexamples -/

/-- An environment in which every external operation succeeds. -/
def envAll : Env :=
  { sourceExists := true, sqlText := "SELECT * FROM sales", connectOk := true,
    cursorOk := true, execOk := true, nrows := 3, csvOk := true, zipOk := true,
    refreshOk := true, buildOk := true, attachReadOk := true, sendOk := true,
    logOk := true, clock := fun n => "T" ++ toString n }

/-- Like `envAll`, but the audit-log file cannot be opened or written. -/
def envLogFail : Env := { envAll with logOk := false }

/-- A concrete secrets bundle. -/
def sec0 : Secrets :=
  { DB_DSN := "oracle-dsn", GMAIL_SENDER_EMAIL := "robot@example.com",
    GMAIL_CLIENT_ID := "client-id", GMAIL_CLIENT_SECRET := "client-secret",
    GMAIL_REFRESH_TOKEN := "refresh-token",
    RECEIVERS := ["team@example.com", "boss@example.com"],
    ERROR_RECEIVERS := ["oncall@example.com"] }

/-! ## Claim C1 -/

/-- C1: with the audit log writable — the failure model of the claim's five
enumerated paths (success, missing source, query failure, export failure,
notification failure), all of which `env`'s remaining flags range over — every
invocation of `run_one_job` returns control to the scheduler normally (nothing
thrown past its handler escapes) and appends exactly one terminal
(`SUCCESS`/`FAIL`) audit record before doing so. -/
theorem C1_exactly_one_terminal_audit (env : Env) (i : Nat) (s : S)
    (name : String) (sec : Secrets) (h : env.logOk = true) :
    (run_one_job env i s name sec).2 = .ok () ∧
    terminalCount (run_one_job env i s name sec).1.logFile
      = terminalCount s.logFile + 1 :=
  ⟨(run_one_job_spec h i s name sec).1, (run_one_job_spec h i s name sec).2.1⟩

theorem C1_witness :
    envAll.logOk = true ∧
    ((run_one_job envAll 0 S0 "sales.sql" sec0).2 = .ok () ∧
      terminalCount (run_one_job envAll 0 S0 "sales.sql" sec0).1.logFile
        = terminalCount S0.logFile + 1) :=
  ⟨rfl, C1_exactly_one_terminal_audit envAll 0 S0 "sales.sql" sec0 rfl⟩

/-! ## Claim C2 -/

/-- C2: when the query source file is absent (and the log is writable), the
runner goes straight to the failure path: the query executor is never invoked
(`dbCalls` untouched, no connection ever opened), no artifact is exported
(`outputs` untouched), the notifier is invoked exactly once — with the error
recipient list, not the success one — and exactly one terminal record, a
`FAIL`, is appended. -/
theorem C2_missing_source_fails_directly (env : Env) (i : Nat) (s : S)
    (name : String) (sec : Secrets) (hsrc : env.sourceExists = false)
    (h : env.logOk = true) :
    (run_one_job env i s name sec).2 = .ok () ∧
    (run_one_job env i s name sec).1.dbCalls = s.dbCalls ∧
    (run_one_job env i s name sec).1.conns = s.conns ∧
    (run_one_job env i s name sec).1.outputs = s.outputs ∧
    (run_one_job env i s name sec).1.mailCalls
      = s.mailCalls ++
        [{ recipients := sec.ERROR_RECEIVERS, subject := "FAILED: " ++ name,
           body := "Error executing job " ++ name ++ "\n\n" ++ tracebackText,
           attachment := none }] ∧
    countStatus (run_one_job env i s name sec).1.logFile "FAIL"
      = countStatus s.logFile "FAIL" + 1 ∧
    countStatus (run_one_job env i s name sec).1.logFile "SUCCESS"
      = countStatus s.logFile "SUCCESS" ∧
    terminalCount (run_one_job env i s name sec).1.logFile
      = terminalCount s.logFile + 1 := by
  cases hre : env.refreshOk <;> cases hbu : env.buildOk <;> cases hse : env.sendOk <;>
    simp [run_one_job, runOneJobBody, runOneJobTry, runOneJobHandler,
      send_mail_gmail_api, log_print_ok h, log_append_ok h, now_ts, hsrc,
      hre, hbu, hse, terminalCount_append, countStatus_append, Row.isTerminal]

/-- An environment whose query source file is missing, everything else fine. -/
def envNoSource : Env := { envAll with sourceExists := false }

theorem C2_witness :
    (envNoSource.sourceExists = false ∧ envNoSource.logOk = true) ∧
    ((run_one_job envNoSource 0 S0 "missing.sql" sec0).2 = .ok () ∧
      (run_one_job envNoSource 0 S0 "missing.sql" sec0).1.dbCalls = S0.dbCalls ∧
      (run_one_job envNoSource 0 S0 "missing.sql" sec0).1.conns = S0.conns ∧
      (run_one_job envNoSource 0 S0 "missing.sql" sec0).1.outputs = S0.outputs ∧
      (run_one_job envNoSource 0 S0 "missing.sql" sec0).1.mailCalls
        = S0.mailCalls ++
          [{ recipients := sec0.ERROR_RECEIVERS, subject := "FAILED: " ++ "missing.sql",
             body := "Error executing job " ++ "missing.sql" ++ "\n\n" ++ tracebackText,
             attachment := none }] ∧
      countStatus (run_one_job envNoSource 0 S0 "missing.sql" sec0).1.logFile "FAIL"
        = countStatus S0.logFile "FAIL" + 1 ∧
      countStatus (run_one_job envNoSource 0 S0 "missing.sql" sec0).1.logFile "SUCCESS"
        = countStatus S0.logFile "SUCCESS" ∧
      terminalCount (run_one_job envNoSource 0 S0 "missing.sql" sec0).1.logFile
        = terminalCount S0.logFile + 1) :=
  ⟨⟨rfl, rfl⟩, C2_missing_source_fails_directly envNoSource 0 S0 "missing.sql" sec0 rfl rfl⟩

/-! ## Claim C3 (corrected) -/

/-- An environment in which `con.cursor()` (line 168) throws, everything else
fine. -/
def envCursorFail : Env := { envAll with cursorOk := false }

/-- C3 counterexample: the claim says no exit of `execute_query` leaves an
open connection. But `cur = con.cursor()` (line 168) sits *before* the
`try`/`finally` (lines 169-179): if cursor creation throws, the function exits
with the freshly opened connection still open — here the open-connection
count went from 0 to 1 and stayed there, while the exception propagated. -/
theorem C3_counterexample :
    (execute_query envCursorFail S0 "oracle-dsn" "SELECT 1").2
      = .error .cursorErr ∧
    (execute_query envCursorFail S0 "oracle-dsn" "SELECT 1").1.conns = 1 ∧
    S0.conns = 0 ∧
    (execute_query envCursorFail S0 "oracle-dsn" "SELECT 1").1.curs = 0 :=
  ⟨rfl, rfl, rfl, rfl⟩

/-- C3 amended: the cursor handle never leaks, and on every exit path *other
than a failure of cursor creation itself* — log failure before connecting,
connection failure, statement execution throwing, or success — the connection
is released too (the `finally` at lines 176-179 covers them all). On the one
remaining path, a `con.cursor()` failure (line 168, outside the
`try`/`finally`), the function exits with the connection still open: exactly
one connection is leaked. -/
theorem C3_amended_release_except_cursor_failure (env : Env) (s : S)
    (dsn q : String) :
    (execute_query env s dsn q).1.curs = s.curs ∧
    (env.cursorOk = true → (execute_query env s dsn q).1.conns = s.conns) ∧
    (env.cursorOk = false → env.logOk = true → env.connectOk = true →
      (execute_query env s dsn q).1.conns = s.conns + 1 ∧
      (execute_query env s dsn q).2 = .error .cursorErr) := by
  refine ⟨?_, ?_, ?_⟩
  · cases hl : env.logOk <;> cases hc : env.connectOk <;>
      cases hcu : env.cursorOk <;> cases he : env.execOk <;>
      simp [execute_query, log_print, log_append, now_ts, hl, hc, hcu, he]
  · intro hcu
    cases hl : env.logOk <;> cases hc : env.connectOk <;> cases he : env.execOk <;>
      simp [execute_query, log_print, log_append, now_ts, hl, hc, hcu, he]
  · intro hcu hl hc
    exact ⟨by simp [execute_query, log_print, log_append, now_ts, hl, hc, hcu],
      by simp [execute_query, log_print, log_append, now_ts, hl, hc, hcu]⟩

theorem C3_amended_witness :
    ((execute_query envCursorFail S0 "oracle-dsn" "SELECT 1").1.curs
        = S0.curs ∧
      (envCursorFail.cursorOk = true →
        (execute_query envCursorFail S0 "oracle-dsn" "SELECT 1").1.conns
          = S0.conns) ∧
      (envCursorFail.cursorOk = false → envCursorFail.logOk = true →
        envCursorFail.connectOk = true →
        (execute_query envCursorFail S0 "oracle-dsn" "SELECT 1").1.conns
            = S0.conns + 1 ∧
        (execute_query envCursorFail S0 "oracle-dsn" "SELECT 1").2
            = .error .cursorErr)) ∧
    envCursorFail.cursorOk = false ∧ envCursorFail.logOk = true ∧
    envCursorFail.connectOk = true :=
  ⟨C3_amended_release_except_cursor_failure envCursorFail S0 "oracle-dsn"
      "SELECT 1",
    rfl, rfl, rfl⟩

/-! ## Claim C4 (corrected) -/

/-- C4 counterexample: the claim says a failing audit-log append never aborts
the job (the error surfaces only on the console and the job continues its
normal path). In the code `log_append`/`log_print` have no handler at all: on
a run where the log file cannot be written, the very first `log_print`
(`JOB-START`, line 190, outside the `try`) raises, the exception escapes
`run_one_job`, and the job produces nothing — no artifacts, no audit record,
no mail — instead of continuing. -/
theorem C4_counterexample :
    (run_one_job envLogFail 0 S0 "sales.sql" sec0).2 = .error .logErr ∧
    (run_one_job envLogFail 0 S0 "sales.sql" sec0).1.outputs = [] ∧
    (run_one_job envLogFail 0 S0 "sales.sql" sec0).1.mails = [] ∧
    (run_one_job envLogFail 0 S0 "sales.sql" sec0).1.logFile = none :=
  ⟨rfl, rfl, rfl, rfl⟩

/-- C4 amended: a failure of the audit-log append is not confined to a console
trace — it raises. Striking at the first append (`JOB-START`), the exception
escapes `run_one_job` to the scheduler and the job aborts having done no
work: no log row, no artifact, no query, no mail. -/
theorem C4_amended_log_failure_aborts (env : Env) (i : Nat) (s : S)
    (name : String) (sec : Secrets) (h : env.logOk = false) :
    (run_one_job env i s name sec).2 = .error .logErr ∧
    (run_one_job env i s name sec).1.logFile = s.logFile ∧
    (run_one_job env i s name sec).1.outputs = s.outputs ∧
    (run_one_job env i s name sec).1.mails = s.mails ∧
    (run_one_job env i s name sec).1.mailCalls = s.mailCalls ∧
    (run_one_job env i s name sec).1.dbCalls = s.dbCalls := by
  simp [run_one_job, runOneJobBody, log_print, log_append, now_ts, h]

theorem C4_amended_witness :
    envLogFail.logOk = false ∧
    ((run_one_job envLogFail 1 S0 "a.sql" sec0).2 = .error .logErr ∧
      (run_one_job envLogFail 1 S0 "a.sql" sec0).1.logFile = S0.logFile ∧
      (run_one_job envLogFail 1 S0 "a.sql" sec0).1.outputs = S0.outputs ∧
      (run_one_job envLogFail 1 S0 "a.sql" sec0).1.mails = S0.mails ∧
      (run_one_job envLogFail 1 S0 "a.sql" sec0).1.mailCalls = S0.mailCalls ∧
      (run_one_job envLogFail 1 S0 "a.sql" sec0).1.dbCalls = S0.dbCalls) :=
  ⟨rfl, C4_amended_log_failure_aborts envLogFail 1 S0 "a.sql" sec0 rfl⟩

/-! ## Claim C5 -/

theorem bool_clash {b : Bool} (h1 : b = false) (h2 : b = true) : False := by
  simp [h1] at h2

/-- C5: with the audit log writable, the notifier never raises past its own
boundary: it always returns a boolean. A fully successful send returns `true`;
any of the claim's enumerated internal failures — credential refresh, service
build, transport, or reading an attachment that exists — yields `false` plus
exactly one `MAIL-ERROR` diagnostic row. -/
theorem C5_notifier_boundary (env : Env) (s : S) (se ci cs rt : String)
    (recips : List String) (subj body : String) (att : Option String)
    (h : env.logOk = true) :
    (∃ b, (send_mail_gmail_api env s se ci cs rt recips subj body att).2 = .ok b) ∧
    (env.refreshOk = true → env.buildOk = true → env.attachReadOk = true →
      env.sendOk = true →
      (send_mail_gmail_api env s se ci cs rt recips subj body att).2 = .ok true) ∧
    ((env.refreshOk = false ∨ env.buildOk = false ∨ env.sendOk = false ∨
        (env.attachReadOk = false ∧ ∃ p, att = some p ∧ pathExists s p = true)) →
      (send_mail_gmail_api env s se ci cs rt recips subj body att).2 = .ok false ∧
      countStatus (send_mail_gmail_api env s se ci cs rt recips subj body att).1.logFile
          "MAIL-ERROR"
        = countStatus s.logFile "MAIL-ERROR" + 1) := by
  refine ⟨(send_mail_spec h s se ci cs rt recips subj body att).1, ?_, ?_⟩
  · intro hre hbu hra hse
    rcases att with _ | p
    · simp [send_mail_gmail_api, log_print_ok h, hre, hbu, hra, hse]
    · rcases hlk : List.lookup p s.outputs with _ | v <;>
        simp [send_mail_gmail_api, log_print_ok h, pathExists, hlk, hre, hbu, hra, hse]
  · intro hfail
    rcases att with _ | p
    · cases hre : env.refreshOk <;> cases hbu : env.buildOk <;>
        cases hse : env.sendOk <;>
        first
        | (simp [send_mail_gmail_api, log_print_ok h, pathExists, hre, hbu, hse,
            countStatus_append]; done)
        | exact absurd hfail (by simp [hre, hbu, hse])
    · cases hpe : pathExists s p
      · have hlk : (List.lookup p s.outputs).isSome = false := by
          simpa [pathExists] using hpe
        cases hre : env.refreshOk <;> cases hbu : env.buildOk <;>
          cases hse : env.sendOk <;>
          first
          | (simp [send_mail_gmail_api, log_print_ok h, pathExists, hlk, hre, hbu,
              hse, countStatus_append]; done)
          | exact absurd hfail (by simp [hre, hbu, hse, hpe])
      · have hlk : (List.lookup p s.outputs).isSome = true := by
          simpa [pathExists] using hpe
        cases hre : env.refreshOk <;> cases hbu : env.buildOk <;>
          cases hra : env.attachReadOk <;> cases hse : env.sendOk <;>
          first
          | (simp [send_mail_gmail_api, log_print_ok h, pathExists, hlk, hre, hbu,
              hra, hse, countStatus_append]; done)
          | exact absurd hfail (by simp [hre, hbu, hra, hse])

/-- An environment in which the Gmail transport rejects the send. -/
def envSendFail : Env := { envAll with sendOk := false }

theorem C5_witness :
    envSendFail.logOk = true ∧
    ((∃ b, (send_mail_gmail_api envSendFail S0 "r@x" "i" "c" "t" ["a@x"]
        "Report" "body" none).2 = .ok b) ∧
      (envSendFail.refreshOk = true → envSendFail.buildOk = true →
        envSendFail.attachReadOk = true → envSendFail.sendOk = true →
        (send_mail_gmail_api envSendFail S0 "r@x" "i" "c" "t" ["a@x"]
          "Report" "body" none).2 = .ok true) ∧
      ((envSendFail.refreshOk = false ∨ envSendFail.buildOk = false ∨
          envSendFail.sendOk = false ∨
          (envSendFail.attachReadOk = false ∧
            ∃ p, (none : Option String) = some p ∧ pathExists S0 p = true)) →
        (send_mail_gmail_api envSendFail S0 "r@x" "i" "c" "t" ["a@x"]
          "Report" "body" none).2 = .ok false ∧
        countStatus (send_mail_gmail_api envSendFail S0 "r@x" "i" "c" "t" ["a@x"]
            "Report" "body" none).1.logFile "MAIL-ERROR"
          = countStatus S0.logFile "MAIL-ERROR" + 1)) :=
  ⟨rfl, C5_notifier_boundary envSendFail S0 "r@x" "i" "c" "t" ["a@x"]
    "Report" "body" none rfl⟩

/-! ## Claim C10 -/

/-- C10: a send whose attachment path does not exist on disk behaves exactly
like a send with no attachment at all: same boolean result, same audit rows,
same delivered mail (with nothing attached); the missing attachment causes no
failure and no `MAIL` (attached-file) audit event. -/
theorem C10_absent_attachment_ignored (env : Env) (s : S) (se ci cs rt : String)
    (recips : List String) (subj body : String) (p : String)
    (hmiss : pathExists s p = false) (h : env.logOk = true) :
    ((send_mail_gmail_api env s se ci cs rt recips subj body (some p)).2
        = (send_mail_gmail_api env s se ci cs rt recips subj body none).2 ∧
      (send_mail_gmail_api env s se ci cs rt recips subj body (some p)).1.logFile
        = (send_mail_gmail_api env s se ci cs rt recips subj body none).1.logFile ∧
      (send_mail_gmail_api env s se ci cs rt recips subj body (some p)).1.mails
        = (send_mail_gmail_api env s se ci cs rt recips subj body none).1.mails) ∧
    (env.refreshOk = true → env.buildOk = true → env.sendOk = true →
      (send_mail_gmail_api env s se ci cs rt recips subj body (some p)).2
          = .ok true ∧
      (send_mail_gmail_api env s se ci cs rt recips subj body (some p)).1.mails
        = s.mails ++
          [{ sender := se, recipients := recips, subject := subj, body := body,
             attached := none }] ∧
      countStatus (send_mail_gmail_api env s se ci cs rt recips subj body
          (some p)).1.logFile "MAIL"
        = countStatus s.logFile "MAIL") := by
  have hmiss' : (List.lookup p s.outputs).isSome = false := by
    simpa [pathExists] using hmiss
  constructor
  · cases hre : env.refreshOk <;> cases hbu : env.buildOk <;>
      cases hse : env.sendOk <;>
      simp [send_mail_gmail_api, log_print_ok h, pathExists, hmiss', hre, hbu, hse]
  · intro hre hbu hse
    simp [send_mail_gmail_api, log_print_ok h, pathExists, hmiss', hre, hbu, hse,
      countStatus_append]

theorem C10_witness :
    (pathExists S0 "Output/ghost.zip" = false ∧ envAll.logOk = true) ∧
    (((send_mail_gmail_api envAll S0 "r@x" "i" "c" "t" ["a@x"] "Report" "body"
          (some "Output/ghost.zip")).2
        = (send_mail_gmail_api envAll S0 "r@x" "i" "c" "t" ["a@x"] "Report" "body"
            none).2 ∧
      (send_mail_gmail_api envAll S0 "r@x" "i" "c" "t" ["a@x"] "Report" "body"
          (some "Output/ghost.zip")).1.logFile
        = (send_mail_gmail_api envAll S0 "r@x" "i" "c" "t" ["a@x"] "Report" "body"
            none).1.logFile ∧
      (send_mail_gmail_api envAll S0 "r@x" "i" "c" "t" ["a@x"] "Report" "body"
          (some "Output/ghost.zip")).1.mails
        = (send_mail_gmail_api envAll S0 "r@x" "i" "c" "t" ["a@x"] "Report" "body"
            none).1.mails) ∧
    (envAll.refreshOk = true → envAll.buildOk = true → envAll.sendOk = true →
      (send_mail_gmail_api envAll S0 "r@x" "i" "c" "t" ["a@x"] "Report" "body"
          (some "Output/ghost.zip")).2 = .ok true ∧
      (send_mail_gmail_api envAll S0 "r@x" "i" "c" "t" ["a@x"] "Report" "body"
          (some "Output/ghost.zip")).1.mails
        = S0.mails ++
          [{ sender := "r@x", recipients := ["a@x"], subject := "Report",
             body := "body", attached := none }] ∧
      countStatus (send_mail_gmail_api envAll S0 "r@x" "i" "c" "t" ["a@x"]
          "Report" "body" (some "Output/ghost.zip")).1.logFile "MAIL"
        = countStatus S0.logFile "MAIL")) :=
  ⟨⟨rfl, rfl⟩, C10_absent_attachment_ignored envAll S0 "r@x" "i" "c" "t" ["a@x"]
    "Report" "body" "Output/ghost.zip" rfl rfl⟩

/-! ## The success path, fully explicit (for claims C6 and C8) -/

/-- The artifact path built at lines 199 and 203: `Output/<job token><ext>`
where the job token is `<name> <timestamp>` (line 188). -/
def artifactPath (name ts ext : String) : String :=
  "Output/" ++ (name ++ " " ++ ts) ++ ext

theorem string_ext {a b : String} (h : a.data = b.data) : a = b := by
  cases a; cases b; exact congrArg String.mk h

theorem artifactPath_inj {name t1 t2 e1 e2 : String}
    (hlen : e1.data.length = e2.data.length)
    (heq : artifactPath name t1 e1 = artifactPath name t2 e2) :
    t1 = t2 ∧ e1 = e2 := by
  have h' := congrArg String.data heq
  simp only [artifactPath, String.data_append, List.append_assoc] at h'
  have h2 := List.append_cancel_left (List.append_cancel_left
    (List.append_cancel_left h'))
  obtain ⟨ha, hb⟩ := List.append_inj' h2 hlen
  exact ⟨string_ext ha, string_ext hb⟩

theorem artifactPath_ne_of_ts_ne {name t1 t2 : String} (ext : String)
    (hts : t1 ≠ t2) : artifactPath name t1 ext ≠ artifactPath name t2 ext :=
  fun he => hts (artifactPath_inj rfl he).1

theorem artifactPath_ne_of_ext_ne {name t1 t2 e1 e2 : String}
    (hlen : e1.data.length = e2.data.length) (hext : e1 ≠ e2) :
    artifactPath name t1 e1 ≠ artifactPath name t2 e2 :=
  fun he => hext (artifactPath_inj hlen he).2

theorem rowsAdded_of_append {before after : Option (List LogLine)} {rs : List Row}
    (hd : dataRows after = dataRows before ++ rs) :
    rowsAdded before after = rs := by
  simp [rowsAdded, hd, List.drop_left]

/-- A fully successful run, explicitly: the result, final clock, the two
artifacts written under the run's job token, and the ten audit rows appended,
in order. -/
theorem run_success_sent {env : Env}
    (hsrc : env.sourceExists = true) (hc : env.connectOk = true)
    (hcu : env.cursorOk = true)
    (hex : env.execOk = true) (hcsv : env.csvOk = true) (hz : env.zipOk = true)
    (hre : env.refreshOk = true) (hbu : env.buildOk = true)
    (hra : env.attachReadOk = true) (hse : env.sendOk = true)
    (h : env.logOk = true) (i : Nat) (s : S) (name : String) (sec : Secrets) :
    (run_one_job env i s name sec).2 = .ok () ∧
    (run_one_job env i s name sec).1.tick = s.tick + 11 ∧
    (run_one_job env i s name sec).1.outputs
      = writeOut (writeOut s.outputs
          (artifactPath name (env.clock s.tick) ".csv") i)
          (artifactPath name (env.clock s.tick) ".zip") i ∧
    dataRows (run_one_job env i s name sec).1.logFile
      = dataRows s.logFile ++
        [⟨"JOB-START", name ++ " " ++ env.clock s.tick, env.clock (s.tick + 1),
            "Starting job..."⟩,
          ⟨"DB-CONNECT", "THREAD", env.clock (s.tick + 2), "Opening DB connection"⟩,
          ⟨"DB-EXEC", "THREAD", env.clock (s.tick + 3),
            "Executed SQL | Rows=" ++ toString env.nrows⟩,
          ⟨"DB-CLOSE", "THREAD", env.clock (s.tick + 4), "Connection closed."⟩,
          ⟨"FILE-CSV", name ++ " " ++ env.clock s.tick, env.clock (s.tick + 5),
            "Wrote CSV: " ++ artifactPath name (env.clock s.tick) ".csv"⟩,
          ⟨"FILE-ZIP", name ++ " " ++ env.clock s.tick, env.clock (s.tick + 6),
            "Created ZIP: " ++ artifactPath name (env.clock s.tick) ".zip"⟩,
          ⟨"MAIL", "MAIL:" ++ ("Report: " ++ name), env.clock (s.tick + 7),
            "Attached file " ++ artifactPath name (env.clock s.tick) ".zip"⟩,
          ⟨"MAIL-SENT", "MAIL:" ++ ("Report: " ++ name), env.clock (s.tick + 8),
            "Mail sent to " ++ String.intercalate "," sec.RECEIVERS⟩,
          ⟨"SUCCESS", name ++ " " ++ env.clock s.tick, env.clock (s.tick + 9),
            "Job completed successfully"⟩,
          ⟨"JOB-DONE", name ++ " " ++ env.clock s.tick, env.clock (s.tick + 10),
            "Completed successfully."⟩] := by
  refine ⟨?_, ?_, ?_, ?_⟩ <;>
    simp [run_one_job, runOneJobBody, runOneJobTry, execute_query,
      send_mail_gmail_api, log_print_ok h, log_append_ok h, now_ts, pathExists,
      lookup_writeOut_self, artifactPath, hsrc, hc, hcu, hex, hcsv, hz, hre, hbu,
      hra, hse, dataRows_logAppendCore, add_assoc]

/-- Like `run_success_sent` but the Gmail transport rejects the send: the one
difference in observable behaviour is a `MAIL-ERROR` row where the `MAIL-SENT`
row was — in particular the run still ends with the same `SUCCESS` record. -/
theorem run_success_mailfail {env : Env}
    (hsrc : env.sourceExists = true) (hc : env.connectOk = true)
    (hcu : env.cursorOk = true)
    (hex : env.execOk = true) (hcsv : env.csvOk = true) (hz : env.zipOk = true)
    (hre : env.refreshOk = true) (hbu : env.buildOk = true)
    (hra : env.attachReadOk = true) (hse : env.sendOk = false)
    (h : env.logOk = true) (i : Nat) (s : S) (name : String) (sec : Secrets) :
    (run_one_job env i s name sec).2 = .ok () ∧
    (run_one_job env i s name sec).1.tick = s.tick + 11 ∧
    (run_one_job env i s name sec).1.outputs
      = writeOut (writeOut s.outputs
          (artifactPath name (env.clock s.tick) ".csv") i)
          (artifactPath name (env.clock s.tick) ".zip") i ∧
    dataRows (run_one_job env i s name sec).1.logFile
      = dataRows s.logFile ++
        [⟨"JOB-START", name ++ " " ++ env.clock s.tick, env.clock (s.tick + 1),
            "Starting job..."⟩,
          ⟨"DB-CONNECT", "THREAD", env.clock (s.tick + 2), "Opening DB connection"⟩,
          ⟨"DB-EXEC", "THREAD", env.clock (s.tick + 3),
            "Executed SQL | Rows=" ++ toString env.nrows⟩,
          ⟨"DB-CLOSE", "THREAD", env.clock (s.tick + 4), "Connection closed."⟩,
          ⟨"FILE-CSV", name ++ " " ++ env.clock s.tick, env.clock (s.tick + 5),
            "Wrote CSV: " ++ artifactPath name (env.clock s.tick) ".csv"⟩,
          ⟨"FILE-ZIP", name ++ " " ++ env.clock s.tick, env.clock (s.tick + 6),
            "Created ZIP: " ++ artifactPath name (env.clock s.tick) ".zip"⟩,
          ⟨"MAIL", "MAIL:" ++ ("Report: " ++ name), env.clock (s.tick + 7),
            "Attached file " ++ artifactPath name (env.clock s.tick) ".zip"⟩,
          ⟨"MAIL-ERROR", "MAIL:" ++ ("Report: " ++ name), env.clock (s.tick + 8),
            "exception and traceback"⟩,
          ⟨"SUCCESS", name ++ " " ++ env.clock s.tick, env.clock (s.tick + 9),
            "Job completed successfully"⟩,
          ⟨"JOB-DONE", name ++ " " ++ env.clock s.tick, env.clock (s.tick + 10),
            "Completed successfully."⟩] := by
  refine ⟨?_, ?_, ?_, ?_⟩ <;>
    simp [run_one_job, runOneJobBody, runOneJobTry, execute_query,
      send_mail_gmail_api, log_print_ok h, log_append_ok h, now_ts, pathExists,
      lookup_writeOut_self, artifactPath, hsrc, hc, hcu, hex, hcsv, hz, hre, hbu,
      hra, hse, dataRows_logAppendCore, add_assoc]

/-! ## Claim C6 -/

/-- C6: on a run whose query and export succeed, the success notification
failing (the notifier returning `false`) does not move the job to `Failed`:
the run still completes normally and the only terminal record it appends is
the very same `SUCCESS` record (same job token, same timestamp, same note) as
the run whose notification succeeded. -/
theorem C6_mail_failure_is_still_success (env : Env)
    (hsrc : env.sourceExists = true) (hc : env.connectOk = true)
    (hcu : env.cursorOk = true)
    (hex : env.execOk = true) (hcsv : env.csvOk = true) (hz : env.zipOk = true)
    (hre : env.refreshOk = true) (hbu : env.buildOk = true)
    (hra : env.attachReadOk = true) (h : env.logOk = true)
    (i : Nat) (s : S) (name : String) (sec : Secrets) :
    (run_one_job { env with sendOk := false } i s name sec).2 = .ok () ∧
    (rowsAdded s.logFile
        (run_one_job { env with sendOk := false } i s name sec).1.logFile).filter
        Row.isTerminal
      = [⟨"SUCCESS", name ++ " " ++ env.clock s.tick, env.clock (s.tick + 9),
          "Job completed successfully"⟩] ∧
    (rowsAdded s.logFile
        (run_one_job { env with sendOk := false } i s name sec).1.logFile).filter
        Row.isTerminal
      = (rowsAdded s.logFile
          (run_one_job { env with sendOk := true } i s name sec).1.logFile).filter
          Row.isTerminal := by
  obtain ⟨hF1, _, _, hF4⟩ :=
    @run_success_mailfail { env with sendOk := false }
      hsrc hc hcu hex hcsv hz hre hbu hra rfl h i s name sec
  obtain ⟨_, _, _, hT4⟩ :=
    @run_success_sent { env with sendOk := true }
      hsrc hc hcu hex hcsv hz hre hbu hra rfl h i s name sec
  have hFrows := rowsAdded_of_append hF4
  have hTrows := rowsAdded_of_append hT4
  refine ⟨hF1, ?_, ?_⟩
  · rw [hFrows]
    simp [Row.isTerminal]
  · rw [hFrows, hTrows]
    simp [Row.isTerminal]

theorem C6_witness :
    (envAll.sourceExists = true ∧ envAll.connectOk = true ∧
      envAll.cursorOk = true ∧ envAll.execOk = true ∧
      envAll.csvOk = true ∧ envAll.zipOk = true ∧ envAll.refreshOk = true ∧
      envAll.buildOk = true ∧ envAll.attachReadOk = true ∧ envAll.logOk = true) ∧
    ((run_one_job { envAll with sendOk := false } 0 S0 "sales.sql" sec0).2 = .ok () ∧
      (rowsAdded S0.logFile
          (run_one_job { envAll with sendOk := false } 0 S0 "sales.sql"
            sec0).1.logFile).filter Row.isTerminal
        = [⟨"SUCCESS", "sales.sql" ++ " " ++ envAll.clock S0.tick,
            envAll.clock (S0.tick + 9), "Job completed successfully"⟩] ∧
      (rowsAdded S0.logFile
          (run_one_job { envAll with sendOk := false } 0 S0 "sales.sql"
            sec0).1.logFile).filter Row.isTerminal
        = (rowsAdded S0.logFile
            (run_one_job { envAll with sendOk := true } 0 S0 "sales.sql"
              sec0).1.logFile).filter Row.isTerminal) :=
  ⟨⟨rfl, rfl, rfl, rfl, rfl, rfl, rfl, rfl, rfl, rfl⟩,
    C6_mail_failure_is_still_success envAll rfl rfl rfl rfl rfl rfl rfl rfl rfl
      rfl 0 S0 "sales.sql" sec0⟩

/-! ## Claim C8 (corrected) -/

/-- Every external operation available. -/
def Env.allOk (e : Env) : Prop :=
  e.sourceExists = true ∧ e.connectOk = true ∧ e.cursorOk = true ∧
  e.execOk = true ∧
  e.csvOk = true ∧ e.zipOk = true ∧ e.refreshOk = true ∧ e.buildOk = true ∧
  e.attachReadOk = true ∧ e.sendOk = true ∧ e.logOk = true

/-- An environment whose clock is stuck inside one second (`now_ts` has only
second resolution, line 58). -/
def envSameTs : Env := { envAll with clock := fun _ => "10-10-2025 12-00-00" }

/-- C8 counterexample: run the same job identifier twice with both runs
starting in the same clock second. The job tokens coincide, so the second
run's CSV and ZIP paths equal the first run's; after the first run the Output
directory holds the two files attributed to run 1, and after the second run it
holds the *same two paths* now attributed to run 2 — the second run overwrote
the first run's artifacts instead of producing two distinct files. -/
theorem C8_counterexample :
    (run_one_job envSameTs 1 S0 "sales.sql" sec0).1.outputs
      = [(artifactPath "sales.sql" "10-10-2025 12-00-00" ".csv", 1),
         (artifactPath "sales.sql" "10-10-2025 12-00-00" ".zip", 1)] ∧
    (run_one_job envSameTs 2
        (run_one_job envSameTs 1 S0 "sales.sql" sec0).1 "sales.sql" sec0).1.outputs
      = [(artifactPath "sales.sql" "10-10-2025 12-00-00" ".csv", 2),
         (artifactPath "sales.sql" "10-10-2025 12-00-00" ".zip", 2)] := by
  exact ⟨by decide, by decide⟩

/-- C8 amended: *provided the two runs observe different start timestamps*
(the embedded clock has one-second resolution, so two runs inside the same
second do collide and the second overwrites the first — see the
counterexample), the two job tokens differ: the runs' CSV paths differ, their
ZIP paths differ, the Output directory afterwards holds all four artifacts,
each still attributed to the run that wrote it, and the audit log has gained
two terminal records. -/
theorem C8_amended_distinct_timestamps (env1 env2 : Env) (i j : Nat) (s : S)
    (name : String) (sec : Secrets)
    (h1 : env1.allOk) (h2 : env2.allOk) (hout : s.outputs = [])
    (hts : env1.clock s.tick ≠ env2.clock (s.tick + 11)) :
    artifactPath name (env1.clock s.tick) ".csv"
        ≠ artifactPath name (env2.clock (s.tick + 11)) ".csv" ∧
    artifactPath name (env1.clock s.tick) ".zip"
        ≠ artifactPath name (env2.clock (s.tick + 11)) ".zip" ∧
    (run_one_job env2 j (run_one_job env1 i s name sec).1 name sec).1.outputs
      = [(artifactPath name (env1.clock s.tick) ".csv", i),
         (artifactPath name (env1.clock s.tick) ".zip", i),
         (artifactPath name (env2.clock (s.tick + 11)) ".csv", j),
         (artifactPath name (env2.clock (s.tick + 11)) ".zip", j)] ∧
    terminalCount
        (run_one_job env2 j (run_one_job env1 i s name sec).1 name sec).1.logFile
      = terminalCount s.logFile + 2 := by
  obtain ⟨h1a, h1b, h1k, h1c, h1d, h1e, h1f, h1g, h1h, h1i, h1j⟩ := h1
  obtain ⟨h2a, h2b, h2k, h2c, h2d, h2e, h2f, h2g, h2h, h2i, h2j⟩ := h2
  obtain ⟨_, hT1, hO1, hD1⟩ :=
    run_success_sent h1a h1b h1k h1c h1d h1e h1f h1g h1h h1i h1j i s name sec
  obtain ⟨_, _, hO2, hD2⟩ :=
    run_success_sent h2a h2b h2k h2c h2d h2e h2f h2g h2h h2i h2j j
      (run_one_job env1 i s name sec).1 name sec
  rw [hT1] at hO2 hD2
  have hcz1 : artifactPath name (env1.clock s.tick) ".csv"
      ≠ artifactPath name (env1.clock s.tick) ".zip" :=
    artifactPath_ne_of_ext_ne (by decide) (by decide)
  have hcz2 : artifactPath name (env2.clock (s.tick + 11)) ".csv"
      ≠ artifactPath name (env2.clock (s.tick + 11)) ".zip" :=
    artifactPath_ne_of_ext_ne (by decide) (by decide)
  have hcc : artifactPath name (env1.clock s.tick) ".csv"
      ≠ artifactPath name (env2.clock (s.tick + 11)) ".csv" :=
    artifactPath_ne_of_ts_ne _ hts
  have hzz : artifactPath name (env1.clock s.tick) ".zip"
      ≠ artifactPath name (env2.clock (s.tick + 11)) ".zip" :=
    artifactPath_ne_of_ts_ne _ hts
  have hzc : artifactPath name (env1.clock s.tick) ".zip"
      ≠ artifactPath name (env2.clock (s.tick + 11)) ".csv" :=
    artifactPath_ne_of_ext_ne (by decide) (by decide)
  have hcz3 : artifactPath name (env1.clock s.tick) ".csv"
      ≠ artifactPath name (env2.clock (s.tick + 11)) ".zip" :=
    artifactPath_ne_of_ext_ne (by decide) (by decide)
  rw [hout] at hO1
  have e1 : (run_one_job env1 i s name sec).1.outputs
      = [(artifactPath name (env1.clock s.tick) ".csv", i),
         (artifactPath name (env1.clock s.tick) ".zip", i)] := by
    rw [hO1]; simp [writeOut, hcz1]
  rw [e1] at hO2
  have e2 : (run_one_job env2 j (run_one_job env1 i s name sec).1 name sec).1.outputs
      = [(artifactPath name (env1.clock s.tick) ".csv", i),
         (artifactPath name (env1.clock s.tick) ".zip", i),
         (artifactPath name (env2.clock (s.tick + 11)) ".csv", j),
         (artifactPath name (env2.clock (s.tick + 11)) ".zip", j)] := by
    rw [hO2]
    simp [writeOut, hcc, hzc, hcz3, hzz, hcz2]
  have t1 : terminalCount (run_one_job env1 i s name sec).1.logFile
      = terminalCount s.logFile + 1 := by
    simp [terminalCount, hD1, Row.isTerminal, List.countP_append, List.countP_cons]
  have t2 : terminalCount
        (run_one_job env2 j (run_one_job env1 i s name sec).1 name sec).1.logFile
      = terminalCount (run_one_job env1 i s name sec).1.logFile + 1 := by
    simp [terminalCount, hD2, Row.isTerminal, List.countP_append, List.countP_cons]
  exact ⟨hcc, hzz, e2, by rw [t2, t1]⟩

/-- Two all-available environments whose clocks differ at the relevant ticks. -/
def envClock2 : Env := { envAll with clock := fun n => "U" ++ toString n }

theorem C8_amended_witness :
    (envAll.allOk ∧ envClock2.allOk ∧ S0.outputs = [] ∧
      envAll.clock S0.tick ≠ envClock2.clock (S0.tick + 11)) ∧
    (artifactPath "sales.sql" (envAll.clock S0.tick) ".csv"
        ≠ artifactPath "sales.sql" (envClock2.clock (S0.tick + 11)) ".csv" ∧
      artifactPath "sales.sql" (envAll.clock S0.tick) ".zip"
        ≠ artifactPath "sales.sql" (envClock2.clock (S0.tick + 11)) ".zip" ∧
      (run_one_job envClock2 2
          (run_one_job envAll 1 S0 "sales.sql" sec0).1 "sales.sql" sec0).1.outputs
        = [(artifactPath "sales.sql" (envAll.clock S0.tick) ".csv", 1),
           (artifactPath "sales.sql" (envAll.clock S0.tick) ".zip", 1),
           (artifactPath "sales.sql" (envClock2.clock (S0.tick + 11)) ".csv", 2),
           (artifactPath "sales.sql" (envClock2.clock (S0.tick + 11)) ".zip", 2)] ∧
      terminalCount
          (run_one_job envClock2 2
            (run_one_job envAll 1 S0 "sales.sql" sec0).1 "sales.sql" sec0).1.logFile
        = terminalCount S0.logFile + 2) :=
  ⟨⟨⟨rfl, rfl, rfl, rfl, rfl, rfl, rfl, rfl, rfl, rfl, rfl⟩, ⟨rfl, rfl, rfl, rfl, rfl, rfl, rfl, rfl, rfl, rfl, rfl⟩, rfl, by decide⟩,
    C8_amended_distinct_timestamps envAll envClock2 1 2 S0 "sales.sql" sec0
      ⟨rfl, rfl, rfl, rfl, rfl, rfl, rfl, rfl, rfl, rfl, rfl⟩ ⟨rfl, rfl, rfl, rfl, rfl, rfl, rfl, rfl, rfl, rfl, rfl⟩ rfl (by decide)⟩

/-! ## Claim C7: the scheduler -/

theorem filterMap_strip_eq (l : List String) :
    (l.filterMap fun line =>
        let t := pyStrip line
        if t = "" then none else some t)
      = (l.map pyStrip).filter (fun t => t != "") := by
  induction l with
  | nil => rfl
  | cons hd tl ih =>
      by_cases hh : pyStrip hd = "" <;>
        simp [List.filterMap_cons, hh, ih, List.filter_cons]

theorem parseJobs_eq_map_filter (content : String) :
    parseJobs content
      = ((pySplitlines content).map pyStrip).filter (fun t => t != "") := by
  unfold parseJobs
  exact filterMap_strip_eq _

/-- The serialized pool (lines 270-278): with the log writable on the main
thread and in every dispatched job, N job identifiers yield N `run_one_job`
invocations, N `JOB-START` rows and N terminal audit records, however many of
those jobs fail. -/
theorem runPool_spec (me : MainEnv) (sec : Secrets)
    (h0 : me.env0.logOk = true) (hj : ∀ k, (me.jobEnv k).logOk = true) :
    ∀ (jobs : List String) (s : S) (i : Nat),
      (runPool me sec s jobs i).2 = .ok () ∧
      terminalCount (runPool me sec s jobs i).1.logFile
        = terminalCount s.logFile + jobs.length ∧
      countStatus (runPool me sec s jobs i).1.logFile "JOB-START"
        = countStatus s.logFile "JOB-START" + jobs.length ∧
      (runPool me sec s jobs i).1.jobRuns = s.jobRuns + jobs.length := by
  intro jobs
  induction jobs with
  | nil => intro s i; simp [runPool]
  | cons job rest ih =>
      intro s i
      obtain ⟨hok, ht, hjs, hjr⟩ := run_one_job_spec (hj i) i s job sec
      refine ⟨?_, ?_, ?_, ?_⟩
      · simp only [runPool, hok, log_print_ok h0]
        exact (ih _ _).1
      · simp only [runPool, hok, log_print_ok h0]
        rw [(ih _ _).2.1]
        simp [terminalCount_append, Row.isTerminal, ht]
        omega
      · simp only [runPool, hok, log_print_ok h0]
        rw [(ih _ _).2.2.1]
        simp [countStatus_append, hjs]
        omega
      · simp only [runPool, hok, log_print_ok h0]
        rw [(ih _ _).2.2.2]
        simp [hjr]
        omega

theorem mainAfterSecrets_spec (me : MainEnv) (sec : Secrets)
    (h0 : me.env0.logOk = true) (hj : ∀ k, (me.jobEnv k).logOk = true)
    (hlist : me.listFileExists = true) (s : S) :
    (mainAfterSecrets me sec s).2 = .ok () ∧
    terminalCount (mainAfterSecrets me sec s).1.logFile
      = terminalCount s.logFile + (parseJobs me.listContent).length ∧
    countStatus (mainAfterSecrets me sec s).1.logFile "JOB-START"
      = countStatus s.logFile "JOB-START" + (parseJobs me.listContent).length ∧
    (mainAfterSecrets me sec s).1.jobRuns
      = s.jobRuns + (parseJobs me.listContent).length := by
  obtain ⟨hp1, hp2, hp3, hp4⟩ := runPool_spec me sec h0 hj
    (parseJobs me.listContent)
    { s with
        tick := s.tick + 1,
        logFile := some (logAppendCore s.logFile
          { status := "INFO", job := "MAIN", time := me.env0.clock s.tick,
            notes := "Found " ++ toString (parseJobs me.listContent).length
              ++ " jobs" }) } 0
  refine ⟨?_, ?_, ?_, ?_⟩ <;>
    simp [mainAfterSecrets, log_print_ok h0, hlist, hp1, hp2, hp3, hp4,
      terminalCount_append, countStatus_append, Row.isTerminal]

/-- C7: the scheduler parses the job list into one identifier per non-blank
line (trimmed, blank lines skipped), and — with secrets available, the list
file present, and the audit log writable everywhere — the whole `main` run
completes having dispatched exactly N `run_one_job` invocations and appended
exactly N `JOB-START` rows and exactly N terminal audit records, where N is
the number of parsed identifiers, regardless of how many jobs fail. -/
theorem C7_scheduler_n_jobs_n_events (me : MainEnv) (s : S)
    (haws : me.awsOk = true) (hlist : me.listFileExists = true)
    (h0 : me.env0.logOk = true) (hj : ∀ k, (me.jobEnv k).logOk = true) :
    parseJobs me.listContent
      = ((pySplitlines me.listContent).map pyStrip).filter (fun t => t != "") ∧
    (mainRun me s).2 = .ok () ∧
    (mainRun me s).1.jobRuns = s.jobRuns + (parseJobs me.listContent).length ∧
    countStatus (mainRun me s).1.logFile "JOB-START"
      = countStatus s.logFile "JOB-START" + (parseJobs me.listContent).length ∧
    terminalCount (mainRun me s).1.logFile
      = terminalCount s.logFile + (parseJobs me.listContent).length := by
  obtain ⟨hm1, hm2, hm3, hm4⟩ := mainAfterSecrets_spec me me.secrets h0 hj hlist
    { s with
        tick := s.tick + 1,
        logFile := some (logAppendCore s.logFile
          { status := "INFO", job := "MAIN", time := me.env0.clock s.tick,
            notes := "Starting automated report generation..." }) }
  refine ⟨parseJobs_eq_map_filter me.listContent, ?_, ?_, ?_, ?_⟩ <;>
    simp [mainRun, get_secret, log_print_ok h0, haws, hm1, hm2, hm3, hm4,
      terminalCount_append, countStatus_append, Row.isTerminal]

/-- A concrete scheduler environment: a job list with two non-blank lines (one
of them needing trimming, one blank line skipped); the first dispatched job
succeeds, every other one has a missing source file. -/
def me0 : MainEnv :=
  { env0 := envAll, awsOk := true, localSecretsExists := true, secrets := sec0,
    listFileExists := true, listContent := "sales.sql\n   \n  missing.sql\n",
    jobEnv := fun k => if k = 0 then envAll else envNoSource }

theorem C7_witness :
    (me0.awsOk = true ∧ me0.listFileExists = true ∧ me0.env0.logOk = true ∧
      (∀ k, (me0.jobEnv k).logOk = true)) ∧
    (parseJobs me0.listContent
        = ((pySplitlines me0.listContent).map pyStrip).filter (fun t => t != "") ∧
      (mainRun me0 S0).2 = .ok () ∧
      (mainRun me0 S0).1.jobRuns = S0.jobRuns + (parseJobs me0.listContent).length ∧
      countStatus (mainRun me0 S0).1.logFile "JOB-START"
        = countStatus S0.logFile "JOB-START" + (parseJobs me0.listContent).length ∧
      terminalCount (mainRun me0 S0).1.logFile
        = terminalCount S0.logFile + (parseJobs me0.listContent).length) :=
  ⟨⟨rfl, rfl, rfl, fun k => by dsimp [me0]; split <;> rfl⟩,
    C7_scheduler_n_jobs_n_events me0 S0 rfl rfl rfl
      (fun k => by dsimp [me0]; split <;> rfl)⟩

/-! ## Claim C9: concurrent audit appends -/

theorem runAppends_some (ls : List LogLine) (rs : List Row) :
    runAppends (some ls) rs = some (ls ++ rs.map LogLine.row) := by
  induction rs generalizing ls with
  | nil => simp [runAppends]
  | cons r rest ih =>
      calc runAppends (some ls) (r :: rest)
          = runAppends (some (ls ++ [.row r])) rest := by
            simp [runAppends, auditAppend, logAppendCore]
        _ = some (ls ++ [.row r] ++ rest.map LogLine.row) := ih _
        _ = some (ls ++ (r :: rest).map LogLine.row) := by
            rw [List.append_assoc]
            simp

theorem runAppends_none (r : Row) (rs : List Row) :
    runAppends none (r :: rs) = some (.header :: (r :: rs).map LogLine.row) := by
  simpa [runAppends, auditAppend, logAppendCore] using runAppends_some [.header, .row r] rs

theorem sum_map_set {α : Type} (f : α → Nat) :
    ∀ (l : List α) (n : Nat) (x y : α), l.get? n = some x →
      ((l.set n y).map f).sum + f x = (l.map f).sum + f y := by
  intro l
  induction l with
  | nil => intro n x y h; simp [List.get?] at h
  | cons a t ih =>
      intro n x y h
      cases n with
      | zero =>
          simp only [List.get?, Option.some.injEq] at h
          subst h
          simp [List.set]
          omega
      | succ m =>
          simp only [List.get?] at h
          have hm := ih m x y h
          simp only [List.set, List.map_cons, List.sum_cons]
          omega

/-- Every interleaving admitted by the lock preserves, row for row, the
multiset of appended rows: each counting predicate counts the same over the
serialized sequence as summed over the threads (no lost and no fabricated
appends). -/
theorem interleaving_countP (p : Row → Bool) :
    ∀ {ts : List (List Row)} {seq : List Row}, auditInterleaving ts seq →
      seq.countP p = (ts.map (fun t => t.countP p)).sum := by
  intro ts seq h
  induction h with
  | done ts h =>
      have : ∀ x ∈ ts.map (fun t => t.countP p), x = 0 := by
        intro x hx
        obtain ⟨t, ht, rfl⟩ := List.mem_map.1 hx
        simp [h t ht]
      simp [List.sum_eq_zero this]
  | step ts i r t rest hget _htail ih =>
      have h1 := sum_map_set (fun u => u.countP p) ts i (r :: t) t hget
      simp only [List.countP_cons] at h1 ⊢
      omega

/-- C9: `log_append` holds `log_lock` across the whole
open-append-write-close (lines 50, 64-70), so each append is one atomic
action and a concurrent batch is an arbitrary interleaving (serialization) of
the threads' complete appends. For every such interleaving of K threads
carrying M rows in total, starting from an absent log file: the final file is
exactly one header line followed by the M appended rows, each intact on its
own line — the header is written exactly once (by the first append, which
creates the file), the non-header line count is exactly M, and every counting
predicate over the rows is preserved (no lost, truncated or interleaved
writes). -/
theorem C9_concurrent_append_integrity (ts : List (List Row)) (seq : List Row)
    (hint : auditInterleaving ts seq) (hne : seq ≠ []) :
    runAppends none seq = some (.header :: seq.map LogLine.row) ∧
    ((runAppends none seq).getD []).countP LogLine.isHeader = 1 ∧
    ((runAppends none seq).getD []).countP (fun l => !l.isHeader)
      = (ts.map List.length).sum ∧
    (∀ p : Row → Bool,
      seq.countP p = (ts.map (fun t => t.countP p)).sum) := by
  obtain ⟨r, rs, rfl⟩ : ∃ r rs, seq = r :: rs := by
    cases seq with
    | nil => exact absurd rfl hne
    | cons r rs => exact ⟨r, rs, rfl⟩
  have hrun := runAppends_none r rs
  refine ⟨hrun, ?_, ?_, fun p => interleaving_countP p hint⟩
  · rw [hrun]
    simp [LogLine.isHeader, List.countP_cons, List.countP_map, Function.comp]
  · rw [hrun]
    have hlen := interleaving_countP (fun _ => true) hint
    simp only [List.countP_true] at hlen
    simp [LogLine.isHeader, List.countP_cons, List.countP_map, Function.comp,
      List.countP_true, ← hlen]

/-- Rows used by the C9 witness: two concurrent jobs, one appending one
terminal row, the other appending two rows. -/
def rowA : Row := ⟨"SUCCESS", "sales.sql T0", "T9", "Job completed successfully"⟩

def rowB : Row := ⟨"JOB-START", "missing.sql T11", "T12", "Starting job..."⟩

def rowC : Row := ⟨"FAIL", "missing.sql T11", "T15", "SQL file not found"⟩

theorem C9_witness :
    (auditInterleaving [[rowA], [rowB, rowC]] [rowB, rowA, rowC] ∧
      ([rowB, rowA, rowC] : List Row) ≠ []) ∧
    (runAppends none [rowB, rowA, rowC]
        = some (.header :: ([rowB, rowA, rowC].map LogLine.row)) ∧
      ((runAppends none [rowB, rowA, rowC]).getD []).countP LogLine.isHeader = 1 ∧
      ((runAppends none [rowB, rowA, rowC]).getD []).countP (fun l => !l.isHeader)
        = ([[rowA], [rowB, rowC]].map List.length).sum ∧
      (∀ p : Row → Bool,
        List.countP p [rowB, rowA, rowC]
          = ([[rowA], [rowB, rowC]].map (fun t => t.countP p)).sum)) := by
  have hder : auditInterleaving [[rowA], [rowB, rowC]] [rowB, rowA, rowC] := by
    refine .step _ 1 rowB [rowC] _ rfl ?_
    refine .step _ 0 rowA [] _ rfl ?_
    refine .step _ 1 rowC [] _ rfl ?_
    exact .done _ (by decide)
  exact ⟨⟨hder, by decide⟩,
    C9_concurrent_append_integrity [[rowA], [rowB, rowC]] [rowB, rowA, rowC]
      hder (by decide)⟩

end RA
